import Mathlib

/-!
Shallow embedding of the stripe2 repository's core logic:
the client-side phone normalizer (src/frontend/main.js) and the two
Express endpoint handlers (the backend server file).

JavaScript strings are modelled as `List Char` (`JStr`).  JS regexes
appearing in the code are small enough to translate directly into
boolean functions on character lists.
-/

namespace Stripe2

/-- JS strings modelled as lists of characters. -/
abbrev JStr := List Char

/-- Characters matched by the JS regex class `\s` (whitespace):
space, tab, line feed, carriage return, vertical tab, form feed,
no-break space, BOM.  (The remaining Unicode space separators are
omitted; none of the analysed behaviour depends on them.) -/
def isJSSpace (c : Char) : Bool :=
  c = ' ' || c = '\t' || c = '\n' || c = '\r' ||
  c.toNat = 11 || c.toNat = 12 || c.toNat = 0xa0 || c.toNat = 0xfeff

/-- Characters removed by the repeated pattern `replace(/[\s\-\(\)]/g, '')`:
whitespace, hyphens, parentheses. -/
def isStripped (c : Char) : Bool :=
  isJSSpace c || c = '-' || c = '(' || c = ')'

/-- `phone.replace(/[\s\-\(\)]/g, '')` — strip whitespace, hyphens, parens. -/
def cleanPhone (s : JStr) : JStr :=
  s.filter (fun c => !isStripped c)

/-- `input.replace(/\D/g, '')` — keep only the ASCII digits `0-9`
(JS `\d` is exactly `[0-9]`). -/
def digitsOnly (s : JStr) : JStr :=
  s.filter Char.isDigit

/-- The test of the frontend regex `/^\+?\d{10,15}$/`:
an optional leading `+` followed by 10 to 15 digits, nothing else. -/
def matchesOptPlus10to15 (s : JStr) : Bool :=
  match s with
  | '+' :: rest => rest.all Char.isDigit && decide (10 ≤ rest.length) && decide (rest.length ≤ 15)
  | _ => s.all Char.isDigit && decide (10 ≤ s.length) && decide (s.length ≤ 15)

/-- Frontend `validatePhone(phone)`: strip spaces/dashes/parens, then test
`/^\+?\d{10,15}$/`. -/
def validatePhone (phone : JStr) : Bool :=
  matchesOptPlus10to15 (cleanPhone phone)

/-- Frontend `formatPhoneToUS(phone)`:
strip non-digits; 11 digits starting with `1` → `+` + digits;
exactly 10 digits → `+1` + digits; else if the original input starts
with `+` → original with whitespace/hyphens/parens stripped;
otherwise the bare digit string. -/
def formatPhoneToUS (phone : JStr) : JStr :=
  let d := digitsOnly phone
  if d.length = 11 ∧ d.head? = some '1' then
    '+' :: d
  else if d.length = 10 then
    '+' :: '1' :: d
  else if phone.head? = some '+' then
    cleanPhone phone
  else
    d

/-- The grouping step of frontend `formatPhoneInput`: given the (at most
10) digits kept so far, render `(XXX) XXX-XXXX` progressively. -/
def renderGroups (limited : JStr) : JStr :=
  if limited.length ≤ 3 then
    limited
  else if limited.length ≤ 6 then
    '(' :: limited.take 3 ++ ')' :: ' ' :: limited.drop 3
  else
    '(' :: limited.take 3 ++ ')' :: ' ' :: ((limited.drop 3).take 3 ++ '-' :: limited.drop 6)

/-- Frontend `formatPhoneInput(input)`: strip non-digits, keep the first
10 digits (`substring(0, 10)`), then format for display. -/
def formatPhoneInput (input : JStr) : JStr :=
  renderGroups ((digitsOnly input).take 10)

/-- The test of the backend regex `/^\+1\d{10}$/`:
`+1` followed by exactly 10 digits, nothing else. -/
def matchesUSPhone (s : JStr) : Bool :=
  match s with
  | '+' :: '1' :: rest => rest.all Char.isDigit && decide (rest.length = 10)
  | _ => false

/-- The backend's presence check
`!x || typeof x !== 'string' || x.trim().length === 0` for a JSON body
field.  An absent field (or a non-string value, which the handler treats
identically) is modelled as `none`; a present string fails the check iff
it is blank (every character whitespace — JS `''` is falsy and `trim`
removes whitespace, so both falsiness and the trim check collapse to
blankness). -/
def missingOrBlank (o : Option JStr) : Bool :=
  match o with
  | none => true
  | some s => s.all isJSSpace

/-- Request body of POST `/api/update-customer-phone`. -/
structure UpdatePhoneReq where
  customerId : Option JStr
  phone : Option JStr
deriving DecidableEq

/-- One `stripe.customers.update(customerId, {phone, metadata:{phone}})`
call as issued by the backend. -/
structure StripeUpdate where
  customerId : JStr
  phone : JStr
  metadataPhone : JStr
deriving DecidableEq

/-- Responses of POST `/api/update-customer-phone`:
`badRequest` is `res.status(400).json({error, message})`,
`ok` is `res.json({success: true})` (status 200),
`serverError` is `res.status(500).json({error, message})`. -/
inductive UpdateResp
  | badRequest (error message : JStr)
  | ok
  | serverError (error message : JStr)
deriving DecidableEq

/-- HTTP status code of an update-phone response. -/
def updateStatus : UpdateResp → Nat
  | .badRequest _ _ => 400
  | .ok => 200
  | .serverError _ _ => 500

/-- The POST `/api/update-customer-phone` handler.  `provider` models
`stripe.customers.update` (success or an error whose `message` is the
payload).  Returns the HTTP response together with the list of provider
update calls issued during the request. -/
def updateCustomerPhone (req : UpdatePhoneReq)
    (provider : StripeUpdate → Except JStr Unit) :
    UpdateResp × List StripeUpdate :=
  if missingOrBlank req.customerId then
    (.badRequest "Customer ID is required".toList
       "Please provide a valid customer ID".toList, [])
  else if missingOrBlank req.phone then
    (.badRequest "Phone number is required".toList
       "Please provide a valid phone number".toList, [])
  else
    let cleanedPhone := cleanPhone (req.phone.getD [])
    if !matchesUSPhone cleanedPhone then
      (.badRequest "Invalid phone format".toList
         "Phone number must be a valid US number in format +1XXXXXXXXXX".toList, [])
    else
      let call : StripeUpdate :=
        ⟨req.customerId.getD [], cleanedPhone, cleanedPhone⟩
      match provider call with
      | .ok _ => (.ok, [call])
      | .error m => (.serverError "Failed to update customer phone".toList m, [call])

/-- A customer record as returned by `stripe.customers.create`. -/
structure Customer where
  id : JStr
deriving DecidableEq

/-- A checkout session as returned by `stripe.checkout.sessions.create`. -/
structure Session where
  client_secret : JStr
deriving DecidableEq

/-- Responses of POST `/api/create-setup-session`:
`ok` is `res.json({clientSecret, customerId})` (status 200),
`serverError` is `res.status(500).json({error, message})`. -/
inductive SetupResp
  | ok (clientSecret customerId : JStr)
  | serverError (error message : JStr)
deriving DecidableEq

/-- HTTP status code of a create-setup-session response. -/
def setupStatus : SetupResp → Nat
  | .ok _ _ => 200
  | .serverError _ _ => 500

/-- The POST `/api/create-setup-session` handler.  `createCustomer`
models `stripe.customers.create`, `createSession` models
`stripe.checkout.sessions.create` (given the new customer's id).  The
result carries, besides the HTTP response, how many times each provider
operation was invoked (the handler has no loop or retry: the `try` block
awaits each call once and the single `catch` responds 500). -/
def createSetupSession (createCustomer : Except JStr Customer)
    (createSession : JStr → Except JStr Session) :
    SetupResp × Nat × Nat :=
  match createCustomer with
  | .error m => (.serverError "Failed to create setup session".toList m, 1, 0)
  | .ok cust =>
    match createSession cust.id with
    | .error m => (.serverError "Failed to create setup session".toList m, 1, 1)
    | .ok sess => (.ok sess.client_secret cust.id, 1, 1)

/-! ### Helper lemmas -/

/-- Stripping non-digits from a pure digit string is the identity. -/
theorem digitsOnly_eq_self {s : JStr} (h : s.all Char.isDigit = true) :
    digitsOnly s = s := by
  unfold digitsOnly
  exact List.filter_eq_self.mpr (List.all_eq_true.mp h)

/-- The digit filter yields only digits. -/
theorem all_digit_digitsOnly (s : JStr) : (digitsOnly s).all Char.isDigit = true := by
  unfold digitsOnly
  exact List.all_eq_true.mpr (fun c hc => List.of_mem_filter hc)

/-- A prefix of the kept digits is still all digits. -/
theorem all_digit_take (s : JStr) (n : ℕ) :
    ((digitsOnly s).take n).all Char.isDigit = true := by
  refine List.all_eq_true.mpr (fun c hc => ?_)
  exact List.all_eq_true.mp (all_digit_digitsOnly s) c (List.take_subset n _ hc)

/-- A blank string (all JS whitespace) cleans to the empty string. -/
theorem cleanPhone_eq_nil_of_blank {s : JStr} (h : s.all isJSSpace = true) :
    cleanPhone s = [] := by
  unfold cleanPhone
  refine List.filter_eq_nil_iff.mpr (fun c hc => ?_)
  have hsp : isJSSpace c = true := List.all_eq_true.mp h c hc
  simp [isStripped, hsp]

/-- A phone whose cleaned form passes the backend US regex is not blank. -/
theorem not_blank_of_matchesUSPhone {s : JStr}
    (h : matchesUSPhone (cleanPhone s) = true) : s.all isJSSpace = false := by
  by_contra hb
  have hb' : s.all isJSSpace = true := by
    cases hall : s.all isJSSpace
    · exact absurd hall hb
    · rfl
  rw [cleanPhone_eq_nil_of_blank hb'] at h
  simp [matchesUSPhone] at h

/-! ### Claims -/

/-- C4: for every string of 11 digits whose first digit is `1`,
`formatPhoneToUS` returns `+` followed by those 11 digits; and for every
string of exactly 10 digits, it returns `+1` followed by those 10
digits. -/
theorem formatPhoneToUS_canonical (s : JStr) :
    (s.length = 11 → s.all Char.isDigit = true → s.head? = some '1' →
      formatPhoneToUS s = '+' :: s) ∧
    (s.length = 10 → s.all Char.isDigit = true →
      formatPhoneToUS s = '+' :: '1' :: s) := by
  constructor
  · intro h11 hd h1
    simp [formatPhoneToUS, digitsOnly_eq_self hd, h11, h1]
  · intro h10 hd
    simp [formatPhoneToUS, digitsOnly_eq_self hd, h10]

/-- Witness for C4 at the 11-digit input `15551234567` and the 10-digit
input `5551234567`. -/
theorem formatPhoneToUS_canonical_witness :
    formatPhoneToUS "15551234567".toList = '+' :: "15551234567".toList ∧
    formatPhoneToUS "5551234567".toList = '+' :: '1' :: "5551234567".toList :=
  ⟨(formatPhoneToUS_canonical "15551234567".toList).1 (by decide) (by decide) (by decide),
   (formatPhoneToUS_canonical "5551234567".toList).2 (by decide) (by decide)⟩

/-- C5: when the digit count is neither exactly 10 nor 11-starting-with-`1`
and the input starts with `+`, `formatPhoneToUS` returns the input with
whitespace, hyphens and parentheses stripped — no digit-count validation
on this branch. -/
theorem formatPhoneToUS_plus_branch (s : JStr)
    (h10 : (digitsOnly s).length ≠ 10)
    (h11 : ¬((digitsOnly s).length = 11 ∧ (digitsOnly s).head? = some '1'))
    (hplus : s.head? = some '+') :
    formatPhoneToUS s = cleanPhone s := by
  simp only [formatPhoneToUS]
  rw [if_neg h11, if_neg h10, if_pos hplus]

/-- Witness for C5 at the input `+123` (3 digits, returned as `+123`). -/
theorem formatPhoneToUS_plus_branch_witness :
    formatPhoneToUS "+123".toList = cleanPhone "+123".toList ∧
    cleanPhone "+123".toList = "+123".toList :=
  ⟨formatPhoneToUS_plus_branch "+123".toList (by decide) (by decide) (by decide),
   by decide⟩

/-- C6: `formatPhoneInput` strips non-digits and truncates to at most 10
digits; with 0–3 digits the output is the digit string unchanged, with
4–6 digits it is `(XXX) XXX` with a partial trailing group, and with
7–10 digits it is `(XXX) XXX-XXXX`. -/
theorem formatPhoneInput_shapes (input : JStr) :
    ((digitsOnly input).take 10).length ≤ 10 ∧
    (((digitsOnly input).take 10).length ≤ 3 →
      formatPhoneInput input = (digitsOnly input).take 10) ∧
    (4 ≤ ((digitsOnly input).take 10).length →
      ((digitsOnly input).take 10).length ≤ 6 →
      ∃ a b : JStr, a.length = 3 ∧ (digitsOnly input).take 10 = a ++ b ∧
        formatPhoneInput input = '(' :: a ++ ')' :: ' ' :: b) ∧
    (7 ≤ ((digitsOnly input).take 10).length →
      ∃ a b c : JStr, a.length = 3 ∧ b.length = 3 ∧
        (digitsOnly input).take 10 = a ++ (b ++ c) ∧
        formatPhoneInput input = '(' :: a ++ ')' :: ' ' :: (b ++ '-' :: c)) := by
  set l : JStr := (digitsOnly input).take 10 with hl
  refine ⟨?_, ?_, ?_, ?_⟩
  · rw [hl]
    simp [List.length_take_le 10 (digitsOnly input)]
  · intro h3
    simp [formatPhoneInput, renderGroups, ← hl, h3]
  · intro h4 h6
    refine ⟨l.take 3, l.drop 3, ?_, (List.take_append_drop 3 l).symm, ?_⟩
    · rw [List.length_take]
      omega
    · have hn3 : ¬ l.length ≤ 3 := by omega
      simp [formatPhoneInput, renderGroups, ← hl, hn3, h6]
  · intro h7
    have hdd : (l.drop 3).take 3 ++ l.drop 6 = l.drop 3 := by
      have : (l.drop 3).drop 3 = l.drop 6 := by
        rw [List.drop_drop]
      rw [← this, List.take_append_drop]
    refine ⟨l.take 3, (l.drop 3).take 3, l.drop 6, ?_, ?_, ?_, ?_⟩
    · rw [List.length_take]
      omega
    · rw [List.length_take, List.length_drop]
      omega
    · rw [hdd, List.take_append_drop]
    · have hn3 : ¬ l.length ≤ 3 := by omega
      have hn6 : ¬ l.length ≤ 6 := by omega
      simp [formatPhoneInput, renderGroups, ← hl, hn3, hn6]

/-- Witness for C6 at `555-123-4567` (10 digits: full shape) and at
`5551` (4 digits: partial shape). -/
theorem formatPhoneInput_shapes_witness :
    (∃ a b c : JStr, a.length = 3 ∧ b.length = 3 ∧
      (digitsOnly "555-123-4567".toList).take 10 = a ++ (b ++ c) ∧
      formatPhoneInput "555-123-4567".toList = '(' :: a ++ ')' :: ' ' :: (b ++ '-' :: c)) ∧
    (∃ a b : JStr, a.length = 3 ∧ (digitsOnly "5551".toList).take 10 = a ++ b ∧
      formatPhoneInput "5551".toList = '(' :: a ++ ')' :: ' ' :: b) :=
  ⟨(formatPhoneInput_shapes "555-123-4567".toList).2.2.2 (by decide),
   (formatPhoneInput_shapes "5551".toList).2.2.1 (by decide) (by decide)⟩

/-- The digits of a rendered group string are exactly the digits that
were rendered. -/
theorem digitsOnly_renderGroups {l : JStr} (h : l.all Char.isDigit = true) :
    digitsOnly (renderGroups l) = l := by
  have hsub : ∀ m : JStr, m.Sublist l → List.filter Char.isDigit m = m := by
    intro m hm
    refine List.filter_eq_self.mpr (fun c hc => ?_)
    exact List.all_eq_true.mp h c (hm.subset hc)
  have h1 : List.filter Char.isDigit (l.take 3) = l.take 3 :=
    hsub _ (List.take_sublist 3 l)
  have h2 : List.filter Char.isDigit (l.drop 3) = l.drop 3 :=
    hsub _ (List.drop_sublist 3 l)
  have h3 : List.filter Char.isDigit ((l.drop 3).take 3) = (l.drop 3).take 3 :=
    hsub _ ((List.take_sublist 3 _).trans (List.drop_sublist 3 l))
  have h6 : List.filter Char.isDigit (l.drop 6) = l.drop 6 :=
    hsub _ (List.drop_sublist 6 l)
  have hjoin : (l.drop 3).take 3 ++ l.drop 6 = l.drop 3 := by
    have hd : (l.drop 3).drop 3 = l.drop 6 := by rw [List.drop_drop]
    rw [← hd, List.take_append_drop]
  unfold renderGroups digitsOnly
  split
  · exact hsub l (List.Sublist.refl l)
  · split
    · simp only [List.filter_append, List.filter_cons]
      simp [h1, h2, List.take_append_drop]
    · simp only [List.filter_append, List.filter_cons]
      simp [h1, h3, h6]
      rw [hjoin, List.take_append_drop]

/-- C8: `formatPhoneInput` is idempotent — applying it to its own output
returns that output unchanged. -/
theorem formatPhoneInput_idempotent (x : JStr) :
    formatPhoneInput (formatPhoneInput x) = formatPhoneInput x := by
  show renderGroups ((digitsOnly (formatPhoneInput x)).take 10) = formatPhoneInput x
  rw [show formatPhoneInput x = renderGroups ((digitsOnly x).take 10) from rfl,
      digitsOnly_renderGroups (all_digit_take x 10), List.take_take, Nat.min_self]

/-- Characterization of the frontend regex `/^\+?\d{10,15}$/`. -/
theorem matchesOptPlus10to15_iff (t : JStr) :
    matchesOptPlus10to15 t = true ↔
      ∃ core : JStr, (t = '+' :: core ∨ t = core) ∧
        (∀ c ∈ core, c.isDigit = true) ∧ 10 ≤ core.length ∧ core.length ≤ 15 := by
  cases t with
  | nil =>
    simp only [matchesOptPlus10to15]
    constructor
    · intro h
      simp at h
    · rintro ⟨core, hc | hc, _, h10, _⟩
      · exact absurd hc (by simp)
      · rw [← hc] at h10
        simp at h10
  | cons c rest =>
    by_cases hc : c = '+'
    · subst hc
      simp only [matchesOptPlus10to15, Bool.and_eq_true, decide_eq_true_eq,
        List.all_eq_true]
      constructor
      · rintro ⟨⟨hdig, h10⟩, h15⟩
        exact ⟨rest, Or.inl rfl, hdig, h10, h15⟩
      · rintro ⟨core, hcore | hcore, hdig, h10, h15⟩
        · obtain ⟨rfl⟩ : rest = core := by
            injection hcore
          exact ⟨⟨hdig, h10⟩, h15⟩
        · have : ('+' : Char).isDigit = true := hdig '+' (hcore ▸ List.mem_cons_self _ _)
          simp at this
    · have hred : matchesOptPlus10to15 (c :: rest) =
          ((c :: rest).all Char.isDigit && decide (10 ≤ (c :: rest).length) &&
            decide ((c :: rest).length ≤ 15)) := by
        unfold matchesOptPlus10to15
        split
        · rename_i rest' heq
          injection heq with h1 _
          exact absurd h1 hc
        · rfl
      rw [hred]
      simp only [Bool.and_eq_true, decide_eq_true_eq, List.all_eq_true]
      constructor
      · rintro ⟨⟨hdig, h10⟩, h15⟩
        exact ⟨c :: rest, Or.inr rfl, hdig, h10, h15⟩
      · rintro ⟨core, hcore | hcore, hdig, h10, h15⟩
        · injection hcore with h1 _
          exact absurd h1 hc
        · rw [← hcore] at hdig h10 h15
          exact ⟨⟨hdig, h10⟩, h15⟩

/-- C7: `validatePhone` returns true iff the input with whitespace,
hyphens and parentheses stripped is an optional leading `+` followed by
10 to 15 digits; it always returns a boolean, and on the spec's
examples: `555-123-4567` → true, `123` → false, `+15551234567` →
true. -/
theorem validatePhone_correct (s : JStr) :
    (validatePhone s = true ↔
      ∃ core : JStr, (cleanPhone s = '+' :: core ∨ cleanPhone s = core) ∧
        (∀ c ∈ core, c.isDigit = true) ∧ 10 ≤ core.length ∧ core.length ≤ 15) ∧
    validatePhone "555-123-4567".toList = true ∧
    validatePhone "123".toList = false ∧
    validatePhone "+15551234567".toList = true :=
  ⟨matchesOptPlus10to15_iff (cleanPhone s), by decide, by decide, by decide⟩

/-- Witness for C7 at the spec's concrete example `555-123-4567`. -/
theorem validatePhone_correct_witness :
    validatePhone "555-123-4567".toList = true :=
  (validatePhone_correct "555-123-4567".toList).2.1

/-- C1: the update-phone handler validates fail-fast — missing/blank
`customerId` gives a 400 naming the customer id; then missing/blank
`phone` gives a 400 naming the phone; then a cleaned phone not of the
form `+1` + 10 digits gives a 400 describing the required format; in
every rejection no provider update call is made. -/
theorem updatePhone_validation_order (req : UpdatePhoneReq)
    (provider : StripeUpdate → Except JStr Unit) :
    (missingOrBlank req.customerId = true →
      updateCustomerPhone req provider =
        (.badRequest "Customer ID is required".toList
          "Please provide a valid customer ID".toList, []) ∧
      updateStatus (updateCustomerPhone req provider).1 = 400) ∧
    (missingOrBlank req.customerId = false → missingOrBlank req.phone = true →
      updateCustomerPhone req provider =
        (.badRequest "Phone number is required".toList
          "Please provide a valid phone number".toList, []) ∧
      updateStatus (updateCustomerPhone req provider).1 = 400) ∧
    (missingOrBlank req.customerId = false → missingOrBlank req.phone = false →
      matchesUSPhone (cleanPhone (req.phone.getD [])) = false →
      updateCustomerPhone req provider =
        (.badRequest "Invalid phone format".toList
          "Phone number must be a valid US number in format +1XXXXXXXXXX".toList, []) ∧
      updateStatus (updateCustomerPhone req provider).1 = 400) := by
  refine ⟨fun h1 => ?_, fun h1 h2 => ?_, fun h1 h2 h3 => ?_⟩ <;>
    simp [updateCustomerPhone, updateStatus, h1, *]

/-- Witness for C1: one concrete rejected request per validation step,
each answered 400 with no provider call. -/
theorem updatePhone_validation_order_witness :
    updateCustomerPhone ⟨none, some "+15551234567".toList⟩ (fun _ => Except.ok ()) =
      (.badRequest "Customer ID is required".toList
        "Please provide a valid customer ID".toList, []) ∧
    updateCustomerPhone ⟨some "cus_123".toList, none⟩ (fun _ => Except.ok ()) =
      (.badRequest "Phone number is required".toList
        "Please provide a valid phone number".toList, []) ∧
    updateCustomerPhone ⟨some "cus_123".toList, some "5551234".toList⟩
        (fun _ => Except.ok ()) =
      (.badRequest "Invalid phone format".toList
        "Phone number must be a valid US number in format +1XXXXXXXXXX".toList, []) :=
  ⟨((updatePhone_validation_order ⟨none, some "+15551234567".toList⟩
      (fun _ => Except.ok ())).1 (by decide)).1,
   ((updatePhone_validation_order ⟨some "cus_123".toList, none⟩
      (fun _ => Except.ok ())).2.1 (by decide) (by decide)).1,
   ((updatePhone_validation_order ⟨some "cus_123".toList, some "5551234".toList⟩
      (fun _ => Except.ok ())).2.2 (by decide) (by decide) (by decide)).1⟩

/-- C2: a request with a non-blank `customerId` and a phone whose
cleaned form is `+1` + 10 digits issues exactly one provider update
call, with the same value in the phone field and the metadata phone
field; and when the provider call succeeds the endpoint responds 200
`{success:true}`. -/
theorem updatePhone_success (req : UpdatePhoneReq)
    (provider : StripeUpdate → Except JStr Unit) (ph : JStr)
    (hcid : missingOrBlank req.customerId = false)
    (hph : req.phone = some ph)
    (hmatch : matchesUSPhone (cleanPhone ph) = true) :
    (updateCustomerPhone req provider).2 =
      [⟨req.customerId.getD [], cleanPhone ph, cleanPhone ph⟩] ∧
    (provider ⟨req.customerId.getD [], cleanPhone ph, cleanPhone ph⟩ = .ok () →
      (updateCustomerPhone req provider).1 = .ok ∧
      updateStatus (updateCustomerPhone req provider).1 = 200) := by
  have hblank : missingOrBlank (some ph) = false :=
    not_blank_of_matchesUSPhone hmatch
  have hcall : updateCustomerPhone req provider =
      match provider ⟨req.customerId.getD [], cleanPhone ph, cleanPhone ph⟩ with
      | .ok _ => (.ok, [⟨req.customerId.getD [], cleanPhone ph, cleanPhone ph⟩])
      | .error m => (.serverError "Failed to update customer phone".toList m,
          [⟨req.customerId.getD [], cleanPhone ph, cleanPhone ph⟩]) := by
    simp [updateCustomerPhone, hcid, hph, hblank, hmatch]
  constructor
  · rw [hcall]
    cases provider ⟨req.customerId.getD [], cleanPhone ph, cleanPhone ph⟩ <;> rfl
  · intro hok
    rw [hcall, hok]
    exact ⟨rfl, rfl⟩

/-- Witness for C2 at the spec's example: `cus_123` with phone
`+15551234567` against a succeeding provider stub. -/
theorem updatePhone_success_witness :
    (updateCustomerPhone ⟨some "cus_123".toList, some "+15551234567".toList⟩
        (fun _ => Except.ok ())).2 =
      [⟨"cus_123".toList, "+15551234567".toList, "+15551234567".toList⟩] ∧
    (updateCustomerPhone ⟨some "cus_123".toList, some "+15551234567".toList⟩
        (fun _ => Except.ok ())).1 = .ok :=
  ⟨(updatePhone_success ⟨some "cus_123".toList, some "+15551234567".toList⟩
      (fun _ => Except.ok ()) "+15551234567".toList (by decide) rfl (by decide)).1,
   ((updatePhone_success ⟨some "cus_123".toList, some "+15551234567".toList⟩
      (fun _ => Except.ok ()) "+15551234567".toList (by decide) rfl (by decide)).2 rfl).1⟩

/-- C3: when customer creation and then session creation both succeed,
the create-setup-session endpoint responds 200 with the session's
client secret under `clientSecret` and the new customer's id under
`customerId`, both verbatim from the provider. -/
theorem createSetupSession_success (createCustomer : Except JStr Customer)
    (createSession : JStr → Except JStr Session) (cust : Customer) (sess : Session)
    (hc : createCustomer = .ok cust) (hs : createSession cust.id = .ok sess) :
    createSetupSession createCustomer createSession =
      (.ok sess.client_secret cust.id, 1, 1) ∧
    setupStatus (createSetupSession createCustomer createSession).1 = 200 := by
  subst hc
  simp [createSetupSession, hs, setupStatus]

/-- Witness for C3 against stubbed provider calls returning customer
`cus_abc` and session secret `cs_secret_123`. -/
theorem createSetupSession_success_witness :
    createSetupSession (Except.ok ⟨"cus_abc".toList⟩)
        (fun _ => Except.ok ⟨"cs_secret_123".toList⟩) =
      (.ok "cs_secret_123".toList "cus_abc".toList, 1, 1) :=
  (createSetupSession_success (Except.ok ⟨"cus_abc".toList⟩)
    (fun _ => Except.ok ⟨"cs_secret_123".toList⟩)
    ⟨"cus_abc".toList⟩ ⟨"cs_secret_123".toList⟩ rfl rfl).1

/-- C9: if either provider call of create-setup-session fails, the
endpoint responds 500 with the generic error code and the provider's
message; each provider operation is invoked at most once (no retry). -/
theorem createSetupSession_failure (createCustomer : Except JStr Customer)
    (createSession : JStr → Except JStr Session) :
    (∀ m : JStr, createCustomer = .error m →
      createSetupSession createCustomer createSession =
        (.serverError "Failed to create setup session".toList m, 1, 0) ∧
      setupStatus (createSetupSession createCustomer createSession).1 = 500) ∧
    (∀ (cust : Customer) (m : JStr), createCustomer = .ok cust →
      createSession cust.id = .error m →
      createSetupSession createCustomer createSession =
        (.serverError "Failed to create setup session".toList m, 1, 1) ∧
      setupStatus (createSetupSession createCustomer createSession).1 = 500) ∧
    (createSetupSession createCustomer createSession).2.1 ≤ 1 ∧
    (createSetupSession createCustomer createSession).2.2 ≤ 1 := by
  refine ⟨fun m hm => ?_, fun cust m hc hs => ?_, ?_, ?_⟩
  · subst hm
    simp [createSetupSession, setupStatus]
  · subst hc
    simp [createSetupSession, hs, setupStatus]
  · cases createCustomer with
    | error m => simp [createSetupSession]
    | ok cust => cases h : createSession cust.id <;> simp [createSetupSession, h]
  · cases createCustomer with
    | error m => simp [createSetupSession]
    | ok cust => cases h : createSession cust.id <;> simp [createSetupSession, h]

/-- Witness for C9: customer creation fails with message `stripe down`;
the response is the 500 payload with that message and the session call
is never made. -/
theorem createSetupSession_failure_witness :
    createSetupSession (Except.error "stripe down".toList)
        (fun _ => Except.ok ⟨"cs_x".toList⟩) =
      (.serverError "Failed to create setup session".toList "stripe down".toList, 1, 0) :=
  ((createSetupSession_failure (Except.error "stripe down".toList)
    (fun _ => Except.ok ⟨"cs_x".toList⟩)).1 "stripe down".toList rfl).1

/-- C10: every provider update call issued by the update-phone handler
carries the cleaned phone (whitespace/hyphens/parens stripped from the
request value) in both the phone field and the metadata phone field,
and that value matches `+1` + 10 digits — the raw request value is never
forwarded. -/
theorem updatePhone_forwards_cleaned (req : UpdatePhoneReq)
    (provider : StripeUpdate → Except JStr Unit) (u : StripeUpdate)
    (hu : u ∈ (updateCustomerPhone req provider).2) :
    u.phone = cleanPhone (req.phone.getD []) ∧
    u.metadataPhone = cleanPhone (req.phone.getD []) ∧
    matchesUSPhone u.phone = true := by
  unfold updateCustomerPhone at hu
  by_cases h1 : missingOrBlank req.customerId = true
  · simp [h1] at hu
  · by_cases h2 : missingOrBlank req.phone = true
    · simp [h1, h2] at hu
    · by_cases h3 : matchesUSPhone (cleanPhone (req.phone.getD [])) = true
      · cases hp : provider ⟨req.customerId.getD [], cleanPhone (req.phone.getD []),
            cleanPhone (req.phone.getD [])⟩ with
        | ok v =>
          simp [h1, h2, h3, hp] at hu
          subst hu
          exact ⟨rfl, rfl, h3⟩
        | error m =>
          simp [h1, h2, h3, hp] at hu
          subst hu
          exact ⟨rfl, rfl, h3⟩
      · simp [h1, h2, h3] at hu

/-- Witness for C10: the accepted input `+1 (555) 123-4567` is forwarded
to the provider as `+15551234567` in both fields. -/
theorem updatePhone_forwards_cleaned_witness :
    "+15551234567".toList = cleanPhone "+1 (555) 123-4567".toList ∧
    matchesUSPhone "+15551234567".toList = true := by
  have h := updatePhone_forwards_cleaned
      ⟨some "cus_123".toList, some "+1 (555) 123-4567".toList⟩
      (fun _ => Except.ok ())
      ⟨"cus_123".toList, "+15551234567".toList, "+15551234567".toList⟩
      (by decide)
  exact ⟨h.1, h.2.2⟩

end Stripe2
